import Mathlib

/-!
Verification of the AIFAQ backend (guardrails, agent pipeline, retrieval
ranking, context trimming, query classification, evaluation metrics)
against its natural-language specification.  Python text is modelled as
`List Char`; Python `re` searches used by the code are embedded as
executable matching functions specialised to the concrete patterns that
appear in the source.
-/

namespace Aifaq

/-- Text is modelled as a list of characters (Python `str` on the ASCII
inputs exercised here). -/
abbrev Str := List Char

/-- Shorthand turning a Lean string literal into modelled text. -/
def lit (s : String) : Str := s.toList

/-- Python `str.lower` on ASCII text (`Char.toLower` lowercases exactly
the ASCII uppercase letters). -/
def pyLower (s : Str) : Str := s.map Char.toLower

/-- Python regex `\w` on ASCII text: letters, digits and underscore. -/
def isWordChar (c : Char) : Bool := c.isAlphanum || c == '_'

/-- Python regex `\s` on ASCII text: space, tab, newline, carriage
return, vertical tab and form feed. -/
def isSpaceChar (c : Char) : Bool :=
  c == ' ' || c == '\t' || c == '\n' || c == '\r' || c == '\x0b' || c == '\x0c'

/-- Whether position `i` of `s` holds a word character (out-of-range
positions count as non-word, as at the ends of a Python string). -/
def wordCharAt (s : Str) (i : Nat) : Bool :=
  match s[i]? with
  | some c => isWordChar c
  | none => false

/-- Python regex `\b` at the gap just before position `i`: the
word-character status differs between the previous position and `i`. -/
def boundaryAt (s : Str) (i : Nat) : Bool :=
  (if i = 0 then false else wordCharAt s (i - 1)) != wordCharAt s i

/-- Case-insensitive literal match of `w` at position `i` of `s`,
returning the end position on success (the `(?i)` flag used by the
guardrail query patterns). -/
def litAtCI (s : Str) (i : Nat) (w : Str) : Option Nat :=
  if pyLower ((s.drop i).take w.length) = pyLower w then some (i + w.length)
  else none

/-- Index arithmetic helper: the end of a whitespace run, walking the
suffix list while counting from `i`. -/
def skipSpacesAux : Str → Nat → Nat
  | [], i => i
  | c :: cs, i => if isSpaceChar c then skipSpacesAux cs (i + 1) else i

/-- End of the maximal run of whitespace characters starting at `i`. -/
def skipSpaces (s : Str) (i : Nat) : Nat := skipSpacesAux (s.drop i) i

/-- Python `needle in haystack` on strings: substring containment,
scanning the suffixes of the haystack. -/
def subIn (needle : Str) : Str → Bool
  | [] => needle.isEmpty
  | c :: t => needle.isPrefixOf (c :: t) || subIn needle t

/-- Python `re.search(r'\b' + re.escape(w) + r'\b', s)` as a Boolean:
`w` occurs in `s` with word boundaries on both sides. -/
def wordSearch (w : Str) (s : Str) : Bool :=
  (List.range (s.length + 1)).any fun i =>
    boundaryAt s i && boundaryAt s (i + w.length) &&
      ((s.drop i).take w.length == w)

/-! ### The four default custom-response query patterns

`GuardrailConfig._set_default_config` installs four regexes that
`check_query` tests with `re.search(..., re.IGNORECASE)`.  Each is
embedded as an executable Boolean matcher.  The regexes alternate
keyword literals, use `\s+` / `\s*` runs and an optional `to|for|of`
preposition; because every literal alternative begins with a
non-whitespace character, maximal-munch whitespace consumption is
equivalent to the regex engine's backtracking here, and all literal
alternatives are tried at each start position. -/

/-- The optional preposition `(?:to|for|of)?` of the default patterns. -/
def prepWords : List Str := [lit "to", lit "for", lit "of"]

/-- Continuation `\s+(?:to|for|of)?\s*X` after a matched keyword ending
at `p`, where `X` is the test `verbThen` at the position after the
optional preposition and whitespace. -/
def prepThen (q : Str) (p : Nat) (verbThen : Nat → Bool) : Bool :=
  match q[p]? with
  | some c =>
    isSpaceChar c &&
      (let r := skipSpaces q p
       verbThen r ||
         prepWords.any fun w =>
           match litAtCI q r w with
           | some r2 => verbThen (skipSpaces q r2)
           | none => false)
  | none => false

/-- Keyword alternation followed by the preposition continuation: the
shared skeleton `(?:k₁|k₂|…)\s+(?:to|for|of)?\s*X` of default custom
patterns 1, 3 and 4. -/
def keyPrepThen (q : Str) (i : Nat) (keys : List Str) (verbThen : Nat → Bool) : Bool :=
  keys.any fun k =>
    match litAtCI q i k with
    | some p => prepThen q p verbThen
    | none => false

/-- Whitespace `\s+` at `e` followed by one of the literals `ws`. -/
def wsThenAnyLit (q : Str) (e : Nat) (ws : List Str) : Bool :=
  match q[e]? with
  | some c => isSpaceChar c && ws.any fun w => (litAtCI q (skipSpaces q e) w).isSome
  | none => false

/-- Two-token literal `a\s+b` starting at `r`, returning the end. -/
def twoTokenAt (q : Str) (r : Nat) (a b : Str) : Option Nat :=
  match litAtCI q r a with
  | some p =>
    match q[p]? with
    | some c => if isSpaceChar c then litAtCI q (skipSpaces q p) b else none
    | none => none
  | none => none

/-- Default custom pattern 1:
`(?i).*\b(?:how|can|ways?|method|technique|steps?)\s+(?:to|for|of)?\s*(?:hack|exploit|break|bypass|compromise).*`. -/
def customPattern1 (q : Str) : Bool :=
  (List.range (q.length + 1)).any fun i =>
    boundaryAt q i &&
      keyPrepThen q i
        [lit "how", lit "can", lit "way", lit "ways", lit "method",
         lit "technique", lit "step", lit "steps"]
        (fun r =>
          [lit "hack", lit "exploit", lit "break", lit "bypass",
           lit "compromise"].any fun t => (litAtCI q r t).isSome)

/-- Password / credentials tail `.*\b(?:password|credentials).*` of
default custom pattern 2, somewhere at or after position `e`. -/
def pwTailAfter (q : Str) (e : Nat) : Bool :=
  (List.range (q.length + 1)).any fun j =>
    decide (e ≤ j) && boundaryAt q j &&
      ([lit "password", lit "credentials"].any fun w => (litAtCI q j w).isSome)

/-- Default custom pattern 2:
`(?i).*(?:what|recommend|suggest|tell\s+me|give\s+me).*\b(?:password|credentials).*`. -/
def customPattern2 (q : Str) : Bool :=
  (List.range (q.length + 1)).any fun i =>
    ([lit "what", lit "recommend", lit "suggest"].any fun w =>
      match litAtCI q i w with
      | some e => pwTailAfter q e
      | none => false) ||
    ([lit "tell", lit "give"].any fun w =>
      match twoTokenAt q i w (lit "me") with
      | some e => pwTailAfter q e
      | none => false)

/-- Default custom pattern 3:
`(?i).*(?:how|ways?|method|steps?)\s+(?:to|for|of)?\s*(?:avoid|bypass|trick|fool|get\s+around|circumvent)\s+(?:detection|security|authentication|verification|validation).*`. -/
def customPattern3 (q : Str) : Bool :=
  (List.range (q.length + 1)).any fun i =>
    keyPrepThen q i
      [lit "how", lit "way", lit "ways", lit "method", lit "step", lit "steps"]
      (fun r =>
        let tail := fun e =>
          wsThenAnyLit q e
            [lit "detection", lit "security", lit "authentication",
             lit "verification", lit "validation"]
        ([lit "avoid", lit "bypass", lit "trick", lit "fool",
          lit "circumvent"].any fun v =>
          match litAtCI q r v with
          | some e => tail e
          | none => false) ||
        (match twoTokenAt q r (lit "get") (lit "around") with
         | some e => tail e
         | none => false))

/-- Default custom pattern 4:
`(?i).*(?:how|can|ways?)\s+(?:to|for|of)?\s*(?:steal|obtain|get|extract)\s+(?:data|information|credentials|password|key).*`. -/
def customPattern4 (q : Str) : Bool :=
  (List.range (q.length + 1)).any fun i =>
    keyPrepThen q i [lit "how", lit "can", lit "way", lit "ways"]
      (fun r =>
        [lit "steal", lit "obtain", lit "get", lit "extract"].any fun v =>
          match litAtCI q r v with
          | some e =>
            wsThenAnyLit q e
              [lit "data", lit "information", lit "credentials",
               lit "password", lit "key"]
          | none => false)

/-! ### GuardrailConfig and check_query (src/core/guardrails.py) -/

/-- A compiled response-rewriting pattern: at a position of a text it
either fails or returns the end position of the (leftmost-preferred)
match there.  Regex literals of the source are embedded as such
functions. -/
abbrev Matcher := Str → Nat → Option Nat

/-- `GuardrailConfig` (guardrails.py).  Regex strings are carried as
their compiled matching functions: query patterns (`custom_responses`
keys, tested only for a match) as Boolean searchers, response rewriting
patterns (`filtered_patterns`) as `Matcher`s.  The `disclaimers` dict
with its three recognised keys is carried as three optional fields. -/
structure GuardrailConfig where
  blocked_topics : List Str
  topic_related_terms : List (Str × List Str)
  filtered_patterns : List Matcher
  max_response_length : Nat
  enable_safety_checks : Bool
  custom_responses : List ((Str → Bool) × Str)
  disclaimer_security : Option Str
  disclaimer_blockchain : Option Str
  disclaimer_technical : Option Str
  high_risk_combinations : List (List Str)

/-- `GuardrailConfig.__init__`: the freshly constructed configuration
(empty lists, `max_response_length = 300`, safety checks on, no
disclaimers). -/
def freshConfig : GuardrailConfig where
  blocked_topics := []
  topic_related_terms := []
  filtered_patterns := []
  max_response_length := 300
  enable_safety_checks := true
  custom_responses := []
  disclaimer_security := none
  disclaimer_blockchain := none
  disclaimer_technical := none
  high_risk_combinations := []

/-- The canned reply of default custom pattern 1. -/
def cannedHacking : Str :=
  lit "I cannot provide information about hacking, exploiting vulnerabilities, or unauthorized system access. Instead, I recommend exploring secure development practices and ethical cybersecurity resources if you're interested in security topics."

/-- The canned reply of default custom pattern 2. -/
def cannedPassword : Str :=
  lit "For security reasons, I cannot provide specific password recommendations or discuss credential management specifics. Please refer to your organization's security policies or consult trusted security frameworks like NIST for best practices on credential management."

/-- The canned reply of default custom pattern 3. -/
def cannedBypass : Str :=
  lit "I cannot provide information on bypassing security measures or authentication systems. This kind of activity could be illegal and unethical. Instead, I'd be happy to discuss proper security implementation or legitimate troubleshooting approaches."

/-- The canned reply of default custom pattern 4. -/
def cannedSteal : Str :=
  lit "I cannot provide guidance on extracting data or credentials without authorization. Such activities are potentially illegal and unethical. I can instead discuss proper data access methods, API usage, or legitimate data integration approaches."

/-- The default `topic_related_terms` map of `_set_default_config`. -/
def defaultRelatedTerms : List (Str × List Str) :=
  [(lit "cryptocurrency",
    [lit "bitcoin", lit "ethereum", lit "crypto", lit "token", lit "coin",
     lit "mining", lit "exchange", lit "trading", lit "wallet", lit "profit",
     lit "altcoin", lit "blockchain investment", lit "ICO"]),
   (lit "hacking",
    [lit "exploit", lit "vulnerability", lit "unauthorized access",
     lit "bypass security", lit "crack password", lit "penetration testing",
     lit "exploit code", lit "backdoor", lit "security breach",
     lit "break into", lit "infiltrate system", lit "circumvent protection"]),
   (lit "illegal activities",
    [lit "black market", lit "smuggling", lit "theft", lit "fraud scheme",
     lit "money laundering", lit "illegal download", lit "counterfeit",
     lit "unauthorized copying", lit "piracy", lit "unlawful access",
     lit "stealing", lit "illicit"]),
   (lit "personal data extraction",
    [lit "dox", lit "personal information", lit "home address",
     lit "private details", lit "contact information", lit "email address",
     lit "phone number", lit "track someone", lit "locate person",
     lit "find someone", lit "personal profile"]),
   (lit "discrimination",
    [lit "racial bias", lit "gender discrimination", lit "stereotype",
     lit "prejudice", lit "sexist", lit "racist", lit "discriminatory",
     lit "bias against", lit "hate speech"]),
   (lit "harmful content",
    [lit "self-harm", lit "suicide method", lit "dangerous chemical",
     lit "weapon making", lit "explosives", lit "harmful instructions",
     lit "dangerous experiment"])]

/-- The default security disclaimer text. -/
def defaultDisclaimerSecurity : Str :=
  lit "\n\nNote: This information is provided for educational purposes only. Always follow your organization's security policies, consult with security professionals, and ensure compliance with relevant regulations when implementing security measures."

/-- The default blockchain disclaimer text. -/
def defaultDisclaimerBlockchain : Str :=
  lit "\n\nNote: The blockchain technology landscape evolves rapidly. This information may change over time, and you should verify it against current documentation for your specific platform version."

/-- The default technical disclaimer text. -/
def defaultDisclaimerTechnical : Str :=
  lit "\n\nNote: Implementation details may vary based on your specific environment, software versions, and organizational requirements. Always test in a non-production environment first."

/-- Match a sequence of case-insensitive literal tokens separated by
`\s+` starting at `i`, returning the end position; used to embed the
default `filtered_patterns`, whose pieces all begin with non-whitespace
characters so maximal-munch is equivalent to regex backtracking. -/
def tokensAt (q : Str) (i : Nat) : List Str → Option Nat
  | [] => some i
  | [w] => litAtCI q i w
  | w :: ws =>
    match litAtCI q i w with
    | some p =>
      match q[p]? with
      | some c => if isSpaceChar c then tokensAt q (skipSpaces q p) ws else none
      | none => none
    | none => none

/-- First success of `f` over `l`, in order (regex alternation order). -/
def firstSome {α β : Type} (l : List α) (f : α → Option β) : Option β :=
  match l with
  | [] => none
  | a :: as => (f a).orElse fun _ => firstSome as f

/-- Matcher for an alternation of token sequences followed by
`\s+` and a final character class run of at least `n` characters:
the shape `(?:alt₁|alt₂|…)\s+[class]{n,}` shared (with the variant
`\s*:?\s*` separator, selected by `colonSep`) by the default
`filtered_patterns`. -/
def phraseClassMatcher (alts : List (List Str)) (colonSep : Bool)
    (cls : Char → Bool) (n : Nat) : Matcher := fun s i =>
  firstSome alts fun a =>
    match tokensAt s i a with
    | some p =>
      let r :=
        if colonSep then
          let r1 := skipSpaces s p
          match s[r1]? with
          | some ':' => skipSpaces s (r1 + 1)
          | _ => r1
        else
          match s[p]? with
          | some c => if isSpaceChar c then skipSpaces s p else p
          | none => p
      if colonSep || r > p then
        let run := ((s.drop r).takeWhile cls).length
        if n ≤ run then some (r + run) else none
      else none
    | none => none

/-- Python non-whitespace class `\S`. -/
def isNonSpace (c : Char) : Bool := !(isSpaceChar c)

/-- The eight default `filtered_patterns` of `_set_default_config`,
as matchers (password / card / key / token / credential phrasings). -/
def defaultFilteredPatterns : List Matcher :=
  [phraseClassMatcher
    [[lit "my", lit "password", lit "is"],
     [lit "my", lit "password", lit "should", lit "be"],
     [lit "my", lit "password", lit "could", lit "be"]] false isNonSpace 1,
   phraseClassMatcher
    [[lit "password", lit "is"],
     [lit "password", lit "should", lit "be"],
     [lit "password", lit "could", lit "be"]] false isNonSpace 1,
   phraseClassMatcher
    (([lit "your", lit "the", lit "a"]).flatMap fun a =>
      ([lit "is", lit "should", lit "could", lit "might", lit "will",
        lit "would"]).map fun v => [a, lit "password", v]) false isNonSpace 1,
   phraseClassMatcher
    [[lit "credit", lit "card"], [lit "card", lit "number"], [lit "cvv"],
     [lit "security", lit "code"]] true Char.isDigit 3,
   phraseClassMatcher
    [[lit "private", lit "key"], [lit "secret", lit "key"]] true
    (fun c => isWordChar c || c == '/' || c == '+') 5,
   phraseClassMatcher
    [[lit "access", lit "token"], [lit "access", lit "key"],
     [lit "access", lit "credential"]] true isWordChar 5,
   phraseClassMatcher
    [[lit "api", lit "key"], [lit "api", lit "token"],
     [lit "api", lit "secret"]] true isWordChar 5,
   phraseClassMatcher
    [[lit "login", lit "credential"], [lit "account", lit "credential"]]
    true isWordChar 3]

/-- `GuardrailConfig._set_default_config`: the hard-coded default
configuration installed when loading a guardrails file fails. -/
def defaultConfig : GuardrailConfig where
  blocked_topics :=
    [lit "new_topic", lit "cryptocurrency", lit "hacking",
     lit "illegal activities", lit "personal data extraction",
     lit "discrimination", lit "harmful content"]
  topic_related_terms := defaultRelatedTerms
  filtered_patterns := defaultFilteredPatterns
  max_response_length := 300
  enable_safety_checks := true
  custom_responses :=
    [(customPattern1, cannedHacking), (customPattern2, cannedPassword),
     (customPattern3, cannedBypass), (customPattern4, cannedSteal)]
  disclaimer_security := some defaultDisclaimerSecurity
  disclaimer_blockchain := some defaultDisclaimerBlockchain
  disclaimer_technical := some defaultDisclaimerTechnical
  high_risk_combinations :=
    [[lit "hack", lit "tutorial", lit "step"],
     [lit "password", lit "crack", lit "tool"],
     [lit "bypass", lit "security", lit "how"],
     [lit "steal", lit "data", lit "method"],
     [lit "exploit", lit "vulnerability", lit "code"],
     [lit "mine", lit "bitcoin", lit "profit"],
     [lit "trade", lit "exchange", lit "crypto"]]

/-- Reply for a directly blocked topic (f-string of `check_query`). -/
def blockedTopicMsg (topic : Str) : Str :=
  lit "I'm sorry, but I cannot provide information about " ++ topic ++ lit "."

/-- Reply for the hard-coded cryptocurrency special case. -/
def cryptoMsg : Str :=
  lit "I'm sorry, but I cannot provide information about cryptocurrency trading or investments."

/-- Reply for a semantic (related-terms) block. -/
def semanticMsg (topic : Str) : Str :=
  lit "I'm sorry, but I cannot provide information about topics related to " ++ topic ++ lit "."

/-- Reply for a high-risk term-combination block. -/
def highRiskMsg : Str :=
  lit "I cannot provide information on this topic as it appears to be requesting potentially harmful guidance."

/-- The hard-coded cryptocurrency special case of `check_query`: a
crypto word together with a trading word, both as substrings of the
lowercased query. -/
def cryptoSpecialCase (ql : Str) : Bool :=
  ([lit "bitcoin", lit "crypto", lit "mining"].any fun w => subIn w ql) &&
    ([lit "profit", lit "trading", lit "exchange", lit "invest"].any fun w =>
      subIn w ql)

/-- `GuardrailProcessor.check_query` (guardrails.py lines 174-228): the
ordered cascade custom responses → blocked topics → cryptocurrency
special case → related-term (semantic) matches → high-risk
combinations; returns `(should_process, custom_response)`. -/
def check_query (cfg : GuardrailConfig) (query : Str) : Bool × Option Str :=
  let ql := pyLower query
  match firstSome cfg.custom_responses
      (fun pr => if pr.1 query then some pr.2 else none) with
  | some resp => (false, some resp)
  | none =>
  match firstSome cfg.blocked_topics
      (fun t => if subIn (pyLower t) ql then some t else none) with
  | some t => (false, some (blockedTopicMsg t))
  | none =>
  if cryptoSpecialCase ql then (false, some cryptoMsg)
  else
  match firstSome cfg.topic_related_terms
      (fun tr =>
        if 2 ≤ (tr.2.filter fun term => wordSearch (pyLower term) ql).length
        then some tr.1 else none) with
  | some topic => (false, some (semanticMsg topic))
  | none =>
  match firstSome cfg.high_risk_combinations
      (fun combo =>
        if combo.length - 1 ≤ (combo.filter fun t => subIn t ql).length
        then some combo else none) with
  | some _ => (false, some highRiskMsg)
  | none => (true, none)

/-! ### process_response (guardrails.py lines 230-301)

The four sensitive-data regexes are embedded as `Matcher`s with the
regex engine's greedy/backtracking preference, and `re.sub` as a
left-to-right scan replacing each leftmost match. -/

/-- Four digits at `p`, returning the end. -/
def digitsAt (s : Str) (p : Nat) (n : Nat) : Option Nat :=
  if ((s.drop p).take n).length = n && ((s.drop p).take n).all Char.isDigit
  then some (p + n) else none

/-- Candidate continuations of `[- ]?` at `p`: consume the separator if
present (preferred), or skip it. -/
def sepCands (s : Str) (p : Nat) : List Nat :=
  match s[p]? with
  | some c => if c == '-' || c == ' ' then [p + 1, p] else [p]
  | none => [p]

/-- Sensitive pattern 1, credit-card shape:
`\b\d{4}[- ]?\d{4}[- ]?\d{4}[- ]?\d{4}\b`. -/
def ccMatcher : Matcher := fun s i =>
  if boundaryAt s i then
    match digitsAt s i 4 with
    | some p1 =>
      firstSome (sepCands s p1) fun q1 =>
        match digitsAt s q1 4 with
        | some p2 =>
          firstSome (sepCands s p2) fun q2 =>
            match digitsAt s q2 4 with
            | some p3 =>
              firstSome (sepCands s p3) fun q3 =>
                match digitsAt s q3 4 with
                | some e => if boundaryAt s e then some e else none
                | none => none
            | none => none
        | none => none
    | none => none
  else none

/-- Sensitive pattern 2, SSN shape: `\b\d{3}[- ]?\d{2}[- ]?\d{4}\b`. -/
def ssnMatcher : Matcher := fun s i =>
  if boundaryAt s i then
    match digitsAt s i 3 with
    | some p1 =>
      firstSome (sepCands s p1) fun q1 =>
        match digitsAt s q1 2 with
        | some p2 =>
          firstSome (sepCands s p2) fun q2 =>
            match digitsAt s q2 4 with
            | some e => if boundaryAt s e then some e else none
            | none => none
        | none => none
    | none => none
  else none

/-- Greedy candidates for `\d{1,3}` at `p`: lengths 3, 2, 1 in
preference order, as far as digits allow. -/
def shortDigitCands (s : Str) (p : Nat) : List Nat :=
  ([3, 2, 1].filter fun n => (digitsAt s p n).isSome).map (p + ·)

/-- Sensitive pattern 3, IPv4 shape: `\b(?:\d{1,3}\.){3}\d{1,3}\b`. -/
def ipMatcher : Matcher := fun s i =>
  let octetDot := fun p =>
    firstSome (shortDigitCands s p) fun e =>
      match s[e]? with
      | some '.' => some (e + 1)
      | _ => none
  if boundaryAt s i then
    match octetDot i with
    | some p1 =>
      match octetDot p1 with
      | some p2 =>
        match octetDot p2 with
        | some p3 =>
          firstSome (shortDigitCands s p3) fun e =>
            if boundaryAt s e then some e else none
        | none => none
      | none => none
    | none => none
  else none

/-- Local-part class `[A-Za-z0-9._%+-]` of the email pattern. -/
def isLocalChar (c : Char) : Bool :=
  c.isAlphanum && c.toNat < 128 || c == '.' || c == '_' || c == '%' || c == '+' || c == '-'

/-- Domain class `[A-Za-z0-9.-]` of the email pattern. -/
def isDomainChar (c : Char) : Bool :=
  c.isAlphanum && c.toNat < 128 || c == '.' || c == '-'

/-- Top-level-domain class `[A-Z|a-z]` of the email pattern (the
source's class literally contains `|`). -/
def isTldChar (c : Char) : Bool :=
  ('A' ≤ c && c ≤ 'Z') || ('a' ≤ c && c ≤ 'z') || c == '|'

/-- Descending list `[n, n-1, …, lo]` of backtracking candidates. -/
def descRange (n lo : Nat) : List Nat :=
  ((List.range (n + 1)).filter fun k => lo ≤ k).reverse

/-- Sensitive pattern 4, email shape:
`\b[A-Za-z0-9._%+-]+@[A-Za-z0-9.-]+\.[A-Z|a-z]{2,}\b`.  The greedy
`+` runs backtrack from longest to shortest; the local part never
backtracks effectively because `@` is outside its class. -/
def emailMatcher : Matcher := fun s i =>
  if boundaryAt s i then
    let localLen := ((s.drop i).takeWhile isLocalChar).length
    if localLen = 0 then none
    else
      let p := i + localLen
      match s[p]? with
      | some '@' =>
        let domStart := p + 1
        let domRun := ((s.drop domStart).takeWhile isDomainChar).length
        firstSome (descRange domRun 1) fun d =>
          let dotPos := domStart + d
          match s[dotPos]? with
          | some '.' =>
            let tldStart := dotPos + 1
            let tldRun := ((s.drop tldStart).takeWhile isTldChar).length
            firstSome (descRange tldRun 2) fun t =>
              if boundaryAt s (tldStart + t) then some (tldStart + t) else none
          | _ => none
      | _ => none
  else none

/-- One step of Python `re.sub` scanning from position `i` with `fuel`
steps remaining: replace a (non-empty) leftmost match and continue
after it, otherwise copy one character.  The matchers used here never
match the empty string. -/
def subGo (m : Matcher) (repl s : Str) : Nat → Nat → Str
  | 0, _ => []
  | fuel + 1, i =>
    if h : i < s.length then
      match m s i with
      | some e =>
        if i < e then repl ++ subGo m repl s fuel e
        else s.get ⟨i, h⟩ :: subGo m repl s fuel (i + 1)
      | none => s.get ⟨i, h⟩ :: subGo m repl s fuel (i + 1)
    else []

/-- Python `re.sub(pattern, repl, s)` for a matcher `m`. -/
def pySubAll (m : Matcher) (repl s : Str) : Str :=
  subGo m repl s (s.length + 1) 0

/-- Python `re.search` as a Boolean: some position matches. -/
def reSearch (m : Matcher) (s : Str) : Bool :=
  (List.range (s.length + 1)).any fun i => (m s i).isSome

/-- The four sensitive patterns of `process_response`, in source order. -/
def sensitiveMatchers : List Matcher :=
  [ccMatcher, ssnMatcher, ipMatcher, emailMatcher]

/-- The redaction loop at the end of `process_response`: for each
sensitive pattern, if it matches somewhere, substitute every match by
`[REDACTED]`. -/
def redactSensitive (t : Str) : Str :=
  sensitiveMatchers.foldl
    (fun u m => if reSearch m u then pySubAll m (lit "[REDACTED]") u else u) t

/-- The hard-coded security trigger terms of `process_response`. -/
def securityTerms : List Str :=
  [lit "security", lit "secure", lit "protection", lit "safety",
   lit "privacy", lit "firewall", lit "encrypt", lit "authentication",
   lit "password", lit "credential", lit "access control"]

/-- The hard-coded blockchain trigger terms of `process_response`. -/
def blockchainTerms : List Str :=
  [lit "blockchain", lit "hyperledger", lit "distributed ledger",
   lit "smart contract", lit "consensus", lit "chaincode", lit "fabric"]

/-- The hard-coded technical trigger terms of `process_response`. -/
def technicalTerms : List Str :=
  [lit "implement", lit "deploy", lit "install", lit "configure",
   lit "setup", lit "integration", lit "docker"]

/-- Python `processed += '\n' if not processed.endswith('\n')`. -/
def ensureNL (t : Str) : Str :=
  if t.getLast? == some '\n' then t else t ++ ['\n']

/-- The combined `query_lower + " " + response.lower()` text that the
disclaimer checks of `process_response` scan (built from the original,
untruncated response). -/
def combinedText (query response : Str) : Str :=
  pyLower query ++ [' '] ++ pyLower response

/-- The truncation suffix appended when a response exceeds
`max_response_length`. -/
def truncSuffix : Str := lit "... [Response truncated]"

/-- Stages 1-2 of `process_response`: hard truncation to
`max_response_length`, then every `filtered_patterns` substitution with
`[FILTERED]`. -/
def filterStage (cfg : GuardrailConfig) (response : Str) : Str :=
  let t1 :=
    if cfg.max_response_length < response.length then
      response.take cfg.max_response_length ++ truncSuffix
    else response
  cfg.filtered_patterns.foldl (fun u m => pySubAll m (lit "[FILTERED]") u) t1

/-- Whether any of the `terms` occurs in the combined text. -/
def anyTermIn (terms : List Str) (combined : Str) : Bool :=
  terms.any fun w => subIn w combined

/-- Stage 3 of `process_response` on the technical / no-disclaimer
path: append the technical disclaimer when a technical term occurs in
the combined text. -/
def technicalStage (cfg : GuardrailConfig) (query response : Str) : Str :=
  if anyTermIn technicalTerms (combinedText query response) then
    ensureNL (filterStage cfg response) ++ cfg.disclaimer_technical.getD []
  else filterStage cfg response

/-- `GuardrailProcessor.process_response`: truncation, pattern filters,
then the disclaimer cascade — the security and blockchain branches
return immediately, only the technical / no-disclaimer path reaches the
sensitive-data redaction loop. -/
def process_response (cfg : GuardrailConfig) (query response : Str) : Str :=
  let combined := combinedText query response
  if anyTermIn securityTerms combined then
    ensureNL (filterStage cfg response) ++ cfg.disclaimer_security.getD []
  else if anyTermIn blockchainTerms combined then
    ensureNL (filterStage cfg response) ++ cfg.disclaimer_blockchain.getD []
  else
    redactSensitive (technicalStage cfg query response)

/-! ### The update_guardrails endpoint and the route-level processor
(src/core/api.py, src/core/routes/main.py)

A `GuardrailProcessor` carries no state beyond its config, so
processors are modelled by their `GuardrailConfig`.  The two
module-level bindings that matter are modelled explicitly: `api.py`'s
global `main_guardrails_processor` (created by the
`from routes.main import guardrails_processor as main_guardrails_processor`
alias and rebound by `globals()['main_guardrails_processor'] = …` inside
`update_guardrails`, which executes in `api.py`'s module namespace) and
`routes/main.py`'s global `guardrails_processor`, the binding the
`/query`, `/query/multi-agent` and `/text-query` handlers actually
read. -/

structure ServerState where
  api_main_guardrails_processor : GuardrailConfig
  routes_guardrails_processor : GuardrailConfig

/-- The JSON body of a `POST /update_guardrails` request, with one
optional field per recognised key (`topic_related_terms` and
`high_risk_combinations` are not recognised by the endpoint). -/
structure UpdateBody where
  blocked_topics : Option (List Str)
  filtered_patterns : Option (List Matcher)
  max_response_length : Option Nat
  enable_safety_checks : Option Bool
  custom_responses : Option (List ((Str → Bool) × Str))
  disclaimers : Option (Option Str × Option Str × Option Str)

/-- The body with every key omitted. -/
def emptyBody : UpdateBody where
  blocked_topics := none
  filtered_patterns := none
  max_response_length := none
  enable_safety_checks := none
  custom_responses := none
  disclaimers := none

/-- `update_guardrails`' construction of the new configuration: a
freshly constructed `GuardrailConfig()` whose fields present in the
request body are overwritten. -/
def configFromBody (b : UpdateBody) : GuardrailConfig where
  blocked_topics := b.blocked_topics.getD freshConfig.blocked_topics
  topic_related_terms := freshConfig.topic_related_terms
  filtered_patterns := b.filtered_patterns.getD freshConfig.filtered_patterns
  max_response_length := b.max_response_length.getD freshConfig.max_response_length
  enable_safety_checks := b.enable_safety_checks.getD freshConfig.enable_safety_checks
  custom_responses := b.custom_responses.getD freshConfig.custom_responses
  disclaimer_security := (b.disclaimers.map (·.1)).getD freshConfig.disclaimer_security
  disclaimer_blockchain := (b.disclaimers.map (·.2.1)).getD freshConfig.disclaimer_blockchain
  disclaimer_technical := (b.disclaimers.map (·.2.2)).getD freshConfig.disclaimer_technical
  high_risk_combinations := freshConfig.high_risk_combinations

/-- The `POST /update_guardrails` handler's effect on module state: it
builds the new processor and assigns
`globals()['main_guardrails_processor']`, which rebinds only `api.py`'s
own alias — `routes.main.guardrails_processor`, read by the request
routes, is left unchanged. -/
def update_guardrails (b : UpdateBody) (st : ServerState) : ServerState :=
  { st with api_main_guardrails_processor := configFromBody b }

/-- The guardrail pre-check performed by `answer_query`,
`answer_query_multi_agent` and `text_query`: all three read the
module-level `guardrails_processor` of `routes/main.py`. -/
def routeQueryCheck (st : ServerState) (content : Str) : Bool × Option Str :=
  check_query st.routes_guardrails_processor content

/-! ### BaseAgent.execute_with_logging and AgentCoordinator.run_pipeline
(src/core/agents/base_agent.py, src/core/agents/agent_coordinator.py)

Pipeline state is a Python dict, modelled as an insertion-ordered
association list with in-place update on existing keys.  Wall-clock
durations (`time.time()` differences) are modelled as 0. -/

/-- A Python value stored in the pipeline state: strings, numbers, and
the processing history list (entries `(agent, duration, error)`). -/
inductive Val : Type where
  | str : String → Val
  | nat : Nat → Val
  | hist : List (String × Nat × Option Val) → Val

/-- A Python dict with string keys, keyed in insertion order. -/
abbrev PyDict := List (String × Val)

/-- Python `d.get(k, None)`. -/
def dictGet (d : PyDict) (k : String) : Option Val :=
  (d.find? fun kv => kv.1 == k).map (·.2)

/-- Python `d[k] = v`: update in place when the key exists, append
otherwise. -/
def dictSet (d : PyDict) (k : String) (v : Val) : PyDict :=
  if d.any (fun kv => kv.1 == k) then
    d.map fun kv => if kv.1 == k then (k, v) else kv
  else d ++ [(k, v)]

/-- Python `{**a, **b}`: `a` with every key of `b` set in order. -/
def pyMerge (a b : PyDict) : PyDict :=
  b.foldl (fun acc kv => dictSet acc kv.1 kv.2) a

/-- An agent: a name and a `process` coroutine that either returns a
partial state or raises (modelled by `Except`). -/
structure AgentM where
  name : String
  process : PyDict → Except String PyDict

/-- `BaseAgent.execute_with_logging`: on success, the result with
`processing_time` injected; on any exception, the
`{error, agent, processing_time}` dict instead of propagation. -/
def execWithLogging (a : AgentM) (d : PyDict) : PyDict :=
  match a.process d with
  | .ok r => dictSet r "processing_time" (Val.nat 0)
  | .error e =>
    [("error", Val.str e), ("agent", Val.str a.name),
     ("processing_time", Val.nat 0)]

/-- The history built by `run_pipeline`: one
`{agent, duration, error: result.get("error")}` entry per agent, each
agent running on the state accumulated so far. -/
def runHist : List AgentM → PyDict → List (String × Nat × Option Val)
  | [], _ => []
  | a :: as, d =>
    let r := execWithLogging a d
    (a.name, 0, dictGet r "error") :: runHist as (pyMerge d r)

/-- The state threaded by `run_pipeline`: each agent's result merged
into the current state in order. -/
def runState : List AgentM → PyDict → PyDict
  | [], d => d
  | a :: as, d => runState as (pyMerge d (execWithLogging a d))

/-- The state an agent at position `n` of the pipeline receives. -/
def stateBefore : List AgentM → PyDict → Nat → PyDict
  | _, d, 0 => d
  | [], d, _ + 1 => d
  | a :: as, d, n + 1 => stateBefore as (pyMerge d (execWithLogging a d)) n

/-- `AgentCoordinator.run_pipeline`: the merged final state with the
processing history stored under `processing_history`. -/
def run_pipeline (agents : List AgentM) (init : PyDict) : PyDict :=
  dictSet (runState agents init) "processing_history"
    (Val.hist (runHist agents init))

/-! ### ContextIntegrationAgent._trim_context
(src/core/agents/context_agent.py lines 364-376)

The agent's default `max_context_length` is 4000; in CPython,
`int(4000 * 0.6) = 2400` and `int(4000 * 0.4) = 1600` (both float
products round to the exact integers). -/

/-- The agent's default `max_context_length`. -/
def maxContextLength : Nat := 4000

/-- `keep_start = int(max_context_length * 0.6)` at the default. -/
def keepStart : Nat := 2400

/-- `keep_end = int(max_context_length * 0.4)` at the default. -/
def keepEnd : Nat := 1600

/-- The literal marker named by the specification. -/
def trimMarker : Str := lit "...[Content trimmed for length]..."

/-- `_trim_context` at the default `max_context_length`: short contexts
unchanged; long ones keep the first `keep_start` and last `keep_end`
characters around the marker, which the f-string surrounds with one
newline on each side (`context[-keep_end:]` is `drop (length - keep_end)`
since `keep_end` is positive and smaller than the length here). -/
def trim_context (context : Str) : Str :=
  if context.length ≤ maxContextLength then context
  else
    context.take keepStart ++ ('\n' :: trimMarker ++ ['\n']) ++
      context.drop (context.length - keepEnd)

/-! ### RetrievalAgent._rank_documents
(src/core/agents/retrieval_agent.py lines 131-163) -/

/-- The boosted scores: each vector-similarity score plus `0.05` per
key term occurring (as a substring) in the lowercased document text.
Modelled for the index-aligned case `documents.length = scores.length`
(Python raises `IndexError` when `scores` is shorter). -/
def boostedScores (documents : List Str) (scores : List ℚ)
    (key_terms : List Str) : List ℚ :=
  List.zipWith
    (fun doc sc =>
      sc + ((key_terms.filter fun t => subIn t (pyLower doc)).length : ℚ) * (1 / 20))
    documents scores

/-- The index order `np.argsort` sorts by: ascending value, ties by
ascending index. -/
def idxLe (xs : List ℚ) (i j : Nat) : Prop :=
  xs.getD i 0 < xs.getD j 0 ∨ (xs.getD i 0 = xs.getD j 0 ∧ i ≤ j)

instance (xs : List ℚ) : DecidableRel (idxLe xs) := fun i j => by
  unfold idxLe; infer_instance

instance (xs : List ℚ) : IsTotal Nat (idxLe xs) where
  total i j := by
    unfold idxLe
    rcases lt_trichotomy (xs.getD i 0) (xs.getD j 0) with h | h | h
    · exact Or.inl (Or.inl h)
    · rcases Nat.le_total i j with hij | hij
      · exact Or.inl (Or.inr ⟨h, hij⟩)
      · exact Or.inr (Or.inr ⟨h.symm, hij⟩)
    · exact Or.inr (Or.inl h)

instance (xs : List ℚ) : IsTrans Nat (idxLe xs) where
  trans i j k := by
    unfold idxLe
    rintro (h₁ | ⟨e₁, l₁⟩) (h₂ | ⟨e₂, l₂⟩)
    · exact Or.inl (h₁.trans h₂)
    · exact Or.inl (e₂ ▸ h₁)
    · exact Or.inl (e₁ ▸ h₂)
    · exact Or.inr ⟨e₁.trans e₂, l₁.trans l₂⟩

instance (xs : List ℚ) : IsAntisymm Nat (idxLe xs) where
  antisymm i j := by
    unfold idxLe
    rintro (h₁ | ⟨e₁, l₁⟩) (h₂ | ⟨e₂, l₂⟩)
    · exact absurd (h₁.trans h₂) (lt_irrefl _)
    · exact absurd h₁ (e₂ ▸ lt_irrefl _)
    · exact absurd h₂ (e₁ ▸ lt_irrefl _)
    · exact Nat.le_antisymm l₁ l₂

/-- `np.argsort(xs)`: the indices of `xs` sorted by ascending value.
Numpy's sort on arrays this small (the re-ranked candidate lists hold
at most a dozen documents, below introsort's insertion-sort cutoff of
16) is stable, so ties keep ascending index order; modelled by a stable
insertion sort over the index order `idxLe`. -/
def argsortAsc (xs : List ℚ) : List Nat :=
  List.insertionSort (idxLe xs) (List.range xs.length)

/-- `RetrievalAgent._rank_documents`: boost, ascending argsort, then
`reverse()` for highest-first order. -/
def rank_documents (documents : List Str) (scores : List ℚ)
    (key_terms : List Str) : List Nat :=
  (argsortAsc (boostedScores documents scores key_terms)).reverse

/-! ### QueryUnderstandingAgent._determine_query_type
(src/core/agents/query_agent.py lines 83-119) -/

/-- The word `w` occurs at position `i` of `s` with `\b` boundaries on
both sides. -/
def wordAtPos (s : Str) (i : Nat) (w : Str) : Bool :=
  boundaryAt s i && boundaryAt s (i + w.length) && ((s.drop i).take w.length == w)

/-- `\bA\b.+\bB\b`: word `a`, at least one character (`.` matches
anything but a newline), then word `b`. -/
def wordDotPlusWord (s : Str) (a b : Str) : Bool :=
  (List.range (s.length + 1)).any fun i =>
    wordAtPos s i a &&
      (List.range (s.length + 1)).any fun j =>
        decide (i + a.length + 1 ≤ j) && wordAtPos s j b &&
          (((s.drop (i + a.length)).take (j - (i + a.length))).all fun c => c != '\n')

/-- `\bA\s+B\b`: word-boundary `a`, whitespace, `b` ending at a word
boundary. -/
def wordGapWord (s : Str) (a b : Str) : Bool :=
  (List.range (s.length + 1)).any fun i =>
    boundaryAt s i && ((s.drop i).take a.length == a) &&
      (match s[i + a.length]? with
       | some c =>
         isSpaceChar c &&
           (let r := skipSpaces s (i + a.length)
            ((s.drop r).take b.length == b) && boundaryAt s (r + b.length))
       | none => false)

/-- The comparative alternation
`\bhow\b.+\bcompare\b|\bcompare\b|\bdifference\b|\bdistinguish\b|\bversus\b|\bvs\b|\bsimilar\b|\bdifferent\b`
over the lowercased query. -/
def matchesComparative (ql : Str) : Bool :=
  wordDotPlusWord ql (lit "how") (lit "compare") ||
    [lit "compare", lit "difference", lit "distinguish", lit "versus",
     lit "vs", lit "similar", lit "different"].any fun w => wordSearch w ql

/-- The procedural alternation
`\bhow\b.+\bdo\b|\bhow\b.+\bcan\b|\bhow\b.+\bto\b`. -/
def matchesProcedural (ql : Str) : Bool :=
  [lit "do", lit "can", lit "to"].any fun w => wordDotPlusWord ql (lit "how") w

/-- `QueryUnderstandingAgent._determine_query_type`: the ordered
first-match-wins cascade over the lowercased query, comparative
checked first. -/
def determine_query_type (query : Str) : Str :=
  let ql := pyLower query
  if matchesComparative ql then lit "comparative"
  else if matchesProcedural ql then lit "procedural"
  else if [lit "how", lit "explain", lit "describe",
      lit "elaborate"].any fun w => wordSearch w ql then lit "explanatory"
  else if wordGapWord ql (lit "what") (lit "is") || wordSearch (lit "define") ql ||
      wordGapWord ql (lit "meaning") (lit "of") || wordSearch (lit "definition") ql
    then lit "definitional"
  else if [lit "why", lit "cause", lit "reason"].any fun w => wordSearch w ql
    then lit "causal"
  else if [lit "when", lit "where", lit "who", lit "which"].any fun w => wordSearch w ql
    then lit "factual"
  else if wordSearch (lit "list") ql || wordSearch (lit "name") ql ||
      wordDotPlusWord ql (lit "give") (lit "examples") then lit "enumerative"
  else if [lit "advantages", lit "benefits", lit "drawbacks",
      lit "limitations"].any fun w => wordSearch w ql then lit "evaluative"
  else lit "general"

/-! ### EvaluationAgent (src/core/agents/evaluation_agent.py)

The five metric functions and the overall score of `process`.  Python
float arithmetic is modelled exactly over `ℚ`. -/

/-- Maximal runs of word characters, with the current (reversed) run
accumulated. -/
def wordRunsAux : Str → Str → List Str
  | [], cur => if cur.isEmpty then [] else [cur.reverse]
  | c :: cs, cur =>
    if isWordChar c then wordRunsAux cs (c :: cur)
    else if cur.isEmpty then wordRunsAux cs [] else cur.reverse :: wordRunsAux cs []

/-- Maximal runs of word characters of a text. -/
def wordRuns (s : Str) : List Str := wordRunsAux s []

/-- `re.findall(r'\b\w{4,}\b', s)`: the maximal word-character runs of
length at least 4. -/
def findallWords4 (s : Str) : List Str :=
  (wordRuns s).filter fun r => 4 ≤ r.length

/-- Split a text at every character satisfying `p` (Python `re.split`
on a single-character class). -/
def splitOnPred (p : Char → Bool) (s : Str) : List Str :=
  s.foldr
    (fun c acc =>
      match acc with
      | a :: rest => if p c then [] :: a :: rest else (c :: a) :: rest
      | [] => [[c]])
    [[]]

/-- Python `str.strip()` on ASCII text. -/
def stripWs (s : Str) : Str :=
  ((s.dropWhile isSpaceChar).reverse.dropWhile isSpaceChar).reverse

/-- The sentence list the evaluation agent uses everywhere:
`re.split(r'[.!?]', response)`, stripped, empties dropped. -/
def pySentences (s : Str) : List Str :=
  ((splitOnPred (fun c => c == '.' || c == '!' || c == '?') s).map stripWs).filter
    fun x => !x.isEmpty

/-- Python `str.split()`: whitespace-run split with no empties. -/
def pySplit (s : Str) : List Str :=
  (splitOnPred isSpaceChar s).filter fun x => !x.isEmpty

/-- The question words of `_evaluate_relevance`. -/
def questionWords : List Str :=
  [lit "what", lit "who", lit "where", lit "when", lit "why", lit "how"]

/-- The question-word penalty loop of `_evaluate_relevance`: for each
word present in the query but absent from the response, subtract 0.1,
flooring at 0. -/
def relPenalty (query response : Str) : List Str → ℚ → ℚ
  | [], sc => sc
  | w :: ws, sc =>
    relPenalty query response ws
      (if subIn w (pyLower query) && !subIn w (pyLower response) then
        max 0 (sc - 1 / 10)
      else sc)

/-- `EvaluationAgent._evaluate_relevance`: capped overlap of 4+-letter
words, then a 0.1 penalty (floored at 0) per question word present in
the query but absent from the response. -/
def evaluate_relevance (response query : Str) : ℚ :=
  let query_words := (findallWords4 (pyLower query)).dedup
  if query_words.isEmpty then 1 / 2
  else
    let response_words := (findallWords4 (pyLower response)).dedup
    if response_words.isEmpty then 0
    else
      let overlap := (query_words.filter (· ∈ response_words)).length
      relPenalty query response questionWords
        (min 1 ((overlap : ℚ) / (query_words.length : ℚ)))

/-- Join a list of texts with a separator (Python `sep.join`). -/
def joinSep (sep : Str) : List Str → Str
  | [] => []
  | [d] => d
  | d :: ds => d ++ sep ++ joinSep sep ds

/-- `EvaluationAgent._evaluate_grounding`: the fraction of sentences
more than half of whose 4+-letter words occur in the concatenated
documents; 0.5 when there are no documents or no sentences. -/
def evaluate_grounding (response : Str) (documents : List Str) : ℚ :=
  if documents.isEmpty then 1 / 2
  else
    let combined := pyLower (joinSep (lit " ") documents)
    let sentences := pySentences response
    if sentences.isEmpty then 1 / 2
    else
      let grounded :=
        (sentences.filter fun sen =>
          let terms := findallWords4 (pyLower sen)
          !terms.isEmpty &&
            decide ((1 : ℚ) / 2 <
              ((terms.filter fun t => subIn t combined).length : ℚ) /
                (terms.length : ℚ))).length
      (grounded : ℚ) / (sentences.length : ℚ)

/-- The per-query-type minimum word counts of `_evaluate_completeness`. -/
def minWordsMap : List (Str × Nat) :=
  [(lit "factual", 20), (lit "definitional", 40), (lit "explanatory", 80),
   (lit "comparative", 100), (lit "procedural", 60), (lit "causal", 70),
   (lit "general", 50)]

/-- The per-query-type ideal word counts of `_evaluate_completeness`. -/
def idealWordsMap : List (Str × Nat) :=
  [(lit "factual", 50), (lit "definitional", 100), (lit "explanatory", 200),
   (lit "comparative", 250), (lit "procedural", 150), (lit "causal", 180),
   (lit "general", 120)]

/-- Python `dict.get(k, d)` over an association list. -/
def lookupD (m : List (Str × Nat)) (k : Str) (d : Nat) : Nat :=
  ((m.find? fun kv => kv.1 == k).map (·.2)).getD d

/-- `re.search(r'\d+\.|\d+\)|\bstep\b\s*\d+', response.lower())`. -/
def hasSteps (response : Str) : Bool :=
  let rl := pyLower response
  ((List.range rl.length).any fun i =>
    match rl[i]?, rl[i + 1]? with
    | some c, some d => c.isDigit && (d == '.' || d == ')')
    | _, _ => false) ||
  ((List.range (rl.length + 1)).any fun i =>
    wordAtPos rl i (lit "step") &&
      (match rl[skipSpaces rl (i + 4)]? with
       | some c => c.isDigit
       | none => false))

/-- The comparison connectives of `_evaluate_completeness`. -/
def comparisonTerms : List Str :=
  [lit "whereas", lit "compared to", lit "similarly", lit "unlike",
   lit "in contrast", lit "advantage", lit "disadvantage"]

/-- `A\s+B` as a plain (boundary-free) pattern, as in
`is\s+a|refers\s+to|defined\s+as`. -/
def litGapLit (s : Str) (a b : Str) : Bool :=
  (List.range (s.length + 1)).any fun i =>
    ((s.drop i).take a.length == a) &&
      (match s[i + a.length]? with
       | some c =>
         isSpaceChar c &&
           ((s.drop (skipSpaces s (i + a.length))).take b.length == b)
       | none => false)

/-- First-sentence definition test of `_evaluate_completeness`. -/
def hasDefinition (response : Str) : Bool :=
  let fs := pyLower ((pySentences response).headD [])
  litGapLit fs (lit "is") (lit "a") || litGapLit fs (lit "refers") (lit "to") ||
    litGapLit fs (lit "defined") (lit "as")

/-- `EvaluationAgent._evaluate_completeness`: word-count banding against
the per-type thresholds, then the structural 0.8/0.2 adjustment for
procedural, comparative and definitional responses, capped at 1. -/
def evaluate_completeness (response query : Str) (query_type : Str) : ℚ :=
  let wc := (pySplit response).length
  let minT := lookupD minWordsMap query_type 50
  let idealT := lookupD idealWordsMap query_type 120
  let base : ℚ :=
    if wc < minT then (wc : ℚ) / (minT : ℚ) * (1 / 2)
    else if wc < idealT then
      1 / 2 + ((wc - minT : Nat) : ℚ) / ((idealT - minT : Nat) : ℚ) * (2 / 5)
    else 9 / 10
  let adjusted : ℚ :=
    if query_type = lit "procedural" then
      base * (4 / 5) + (if hasSteps response then 1 / 5 else 0)
    else if query_type = lit "comparative" then
      base * (4 / 5) +
        (if comparisonTerms.any (fun t => subIn t (pyLower response)) then 1 / 5
         else 0)
    else if query_type = lit "definitional" then
      base * (4 / 5) + (if hasDefinition response then 1 / 5 else 0)
    else base
  min 1 adjusted

/-- The 16 transition words of `_evaluate_coherence`. -/
def transitionWords : List Str :=
  [lit "first", lit "second", lit "third", lit "finally", lit "additionally",
   lit "furthermore", lit "however", lit "therefore", lit "consequently",
   lit "in conclusion", lit "for example", lit "meanwhile", lit "nevertheless",
   lit "similarly", lit "in contrast", lit "specifically"]

/-- `EvaluationAgent._evaluate_coherence`: 0.5 base, up to 0.3 from
transition density, 0.2 for a paragraph break; flat 0.5 for at most one
sentence. -/
def evaluate_coherence (response : Str) : ℚ :=
  let sentences := pySentences response
  if sentences.length ≤ 1 then 1 / 2
  else
    let tc :=
      (sentences.filter fun sen =>
        transitionWords.any fun w => subIn w (pyLower sen)).length
    let density := (tc : ℚ) / ((sentences.length - 1 : Nat) : ℚ)
    let hasPar := subIn (lit "\n\n") response || subIn (lit "\n \n") response
    1 / 2 + min (3 / 10) (density * (3 / 5)) + (if hasPar then 1 / 5 else 0)

/-- The redundancy phrases of `_evaluate_conciseness` (note the source
checks the capitalised phrase `"as I said"` against a lowercased
response). -/
def redundantPhrases : List Str :=
  [lit "as mentioned earlier", lit "as stated before", lit "as I said",
   lit "to reiterate", lit "as previously mentioned"]

/-- Two sentences counting as near-duplicates: both word sets nonempty
and sharing more than 70% of the smaller one's words. -/
def similarPair (a b : Str) : Bool :=
  let wa := (pySplit a).dedup
  let wb := (pySplit b).dedup
  !wa.isEmpty && !wb.isEmpty &&
    decide ((7 : ℚ) / 10 <
      ((wa.filter (· ∈ wb)).length : ℚ) / (min wa.length wb.length : ℚ))

/-- The number of unordered near-duplicate sentence pairs. -/
def countSimilarPairs : List Str → Nat
  | [] => 0
  | a :: rest => (rest.filter (similarPair a)).length + countSimilarPairs rest

/-- `EvaluationAgent._evaluate_conciseness`: word-count banding, then a
redundancy penalty, floored at 0.1 and capped at 1. -/
def evaluate_conciseness (response : Str) : ℚ :=
  let wc := (pySplit response).length
  let redundancy :=
    (redundantPhrases.filter fun p => subIn p (pyLower response)).length
  let sentences := (pySentences response).map pyLower
  let simPairs := countSimilarPairs sentences
  let base : ℚ :=
    if wc < 20 then 3 / 10
    else if wc ≤ 250 then 9 / 10
    else if wc ≤ 400 then 9 / 10 - ((wc - 250 : Nat) : ℚ) / 750
    else 1 / 2
  min 1 (max (1 / 10)
    (base - ((redundancy : ℚ) * (1 / 10) + (simPairs : ℚ) * (1 / 20))))

/-- Round-half-to-even to an integer (CPython `round` on the exact
value; the float results here are exact enough that the rational and
float roundings agree on the inputs considered). -/
def roundHalfEven (x : ℚ) : ℤ :=
  if x - ⌊x⌋ < 1 / 2 then ⌊x⌋
  else if 1 / 2 < x - ⌊x⌋ then ⌊x⌋ + 1
  else if Even ⌊x⌋ then ⌊x⌋ else ⌊x⌋ + 1

/-- Python `round(x, 2)`. -/
def pyRound2 (x : ℚ) : ℚ := (roundHalfEven (x * 100) : ℚ) / 100

/-- The arithmetic mean of the five metric scores computed by
`EvaluationAgent.process`. -/
def evaluationMean (response query : Str) (documents : List Str)
    (query_type : Str) : ℚ :=
  (evaluate_relevance response query + evaluate_grounding response documents +
      evaluate_completeness response query query_type +
      evaluate_coherence response + evaluate_conciseness response) / 5

/-- The `overall_score` value returned by `EvaluationAgent.process`:
`round(overall_score, 2)` of the mean. -/
def overall_score (response query : Str) (documents : List Str)
    (query_type : Str) : ℚ :=
  pyRound2 (evaluationMean response query documents query_type)

/-! ### Concrete instances used by the theorems below -/

/-- The module-level `default_guardrails = GuardrailProcessor()` of
guardrails.py: a processor over a freshly constructed config (the
default topic and pattern lists of `_set_default_config` are installed
only when a `load_from_file` call fails, never here). -/
def default_guardrails : GuardrailConfig := freshConfig

/-- The update body `{"blocked_topics": ["weather"]}`. -/
def weatherBody : UpdateBody := { emptyBody with blocked_topics := some [lit "weather"] }

/-- Server state in which both module bindings hold the processor that
`initialize_guardrails` builds when no guardrails YAML file is found:
one over the `_set_default_config` configuration. -/
def initialServerState : ServerState where
  api_main_guardrails_processor := defaultConfig
  routes_guardrails_processor := defaultConfig

/-- A pipeline agent whose `process` always succeeds with key `k1`. -/
def demoOk1 : AgentM := ⟨"first", fun _ => .ok [("k1", Val.nat 1)]⟩

/-- A pipeline agent whose `process` always raises. -/
def demoFail : AgentM := ⟨"failing", fun _ => .error "boom"⟩

/-- A pipeline agent whose `process` always succeeds with key `k3`. -/
def demoOk3 : AgentM := ⟨"third", fun _ => .ok [("k3", Val.nat 3)]⟩

/-- A three-agent pipeline whose middle agent always fails. -/
def demoAgents : List AgentM := [demoOk1, demoFail, demoOk3]

/-- The spec's example query for the hacking custom-response pattern. -/
def hackQuery : Str := lit "How do I hack into a blockchain?"

/-- The spec's example query that the guardrails allow. -/
def installQuery : Str := lit "How do I install Hyperledger Fabric?"

/-! ## Theorems -/

set_option maxRecDepth 10000 in
/-- C3, counterexample: under the default configuration, `check_query`
on "How do I hack into a blockchain?" returns `should_process = true`
and no custom response — the claimed blocking (`should_process = false`
with a canned reply) does not happen.  The hacking pattern requires the
keyword `how`/`can`/… to be followed (after whitespace and an optional
`to`/`for`/`of`) directly by `hack`/`exploit`/…, which "How do I hack"
is not. -/
theorem hack_query_not_blocked_counterexample :
    (check_query defaultConfig hackQuery).1 = true ∧
    (check_query defaultConfig hackQuery).2 = none := by
  constructor <;> decide

set_option maxRecDepth 10000 in
/-- C3: under the default guardrail configuration, `check_query` allows
both "How do I hack into a blockchain?" and "How do I install
Hyperledger Fabric?", returning `should_process = true` with no custom
response for each. -/
theorem default_config_allows_hack_and_install_queries :
    check_query defaultConfig hackQuery = (true, none) ∧
    check_query defaultConfig installQuery = (true, none) := by
  constructor <;> decide

/-- C10: a freshly constructed `GuardrailConfig` — the one behind the
module-level `default_guardrails` and the one `update_guardrails`
builds from a body that omits every key — has empty `blocked_topics`,
`custom_responses`, `topic_related_terms` and
`high_risk_combinations`, and its `check_query` allows every query
except those caught by the hard-coded cryptocurrency special case
(the documented default lists live in `defaultConfig`, installed only
by `_set_default_config` after a failed file load). -/
theorem fresh_config_blocks_only_crypto_special_case :
    freshConfig.blocked_topics = [] ∧ freshConfig.custom_responses = [] ∧
    freshConfig.topic_related_terms = [] ∧
    freshConfig.high_risk_combinations = [] ∧
    default_guardrails = freshConfig ∧ configFromBody emptyBody = freshConfig ∧
    ∀ q : Str, check_query freshConfig q =
      if cryptoSpecialCase (pyLower q) then (false, some cryptoMsg)
      else (true, none) := by
  refine ⟨rfl, rfl, rfl, rfl, rfl, rfl, fun q => ?_⟩
  by_cases h : cryptoSpecialCase (pyLower q) <;>
    simp [check_query, firstSome, freshConfig, h]

set_option maxRecDepth 10000 in
/-- C2: after `update_guardrails` installs a configuration that blocks
the topic "weather", the guardrail check consulted by the query routes
still uses the old processor and lets "Tell me about the weather"
through, although the newly built configuration would block it; the
routes' module binding is untouched by the update. -/
theorem update_guardrails_not_visible_to_routes :
    routeQueryCheck (update_guardrails weatherBody initialServerState)
        (lit "Tell me about the weather") = (true, none) ∧
    check_query (configFromBody weatherBody) (lit "Tell me about the weather") =
      (false, some (blockedTopicMsg (lit "weather"))) ∧
    (update_guardrails weatherBody initialServerState).routes_guardrails_processor =
      initialServerState.routes_guardrails_processor :=
  ⟨by decide, by decide, rfl⟩

/-- C7: any query whose lowercased text matches the comparative
alternation is classified `comparative`, whatever other patterns it
also matches — the comparative check comes first in the cascade. -/
theorem comparative_query_type_wins (q : Str)
    (h : matchesComparative (pyLower q) = true) :
    determine_query_type q = lit "comparative" := by
  simp [determine_query_type, h]

set_option maxRecDepth 40000 in
/-- Witness for C7 at "How does Hyperledger Fabric compare to
Ethereum?", a query that also matches the procedural and explanatory
patterns. -/
theorem comparative_query_type_witness :
    matchesComparative (pyLower
      (lit "How does Hyperledger Fabric compare to Ethereum?")) = true ∧
    matchesProcedural (pyLower
      (lit "How does Hyperledger Fabric compare to Ethereum?")) = true ∧
    determine_query_type (lit "How does Hyperledger Fabric compare to Ethereum?") =
      lit "comparative" :=
  ⟨by decide, by decide, comparative_query_type_wins _ (by decide)⟩

/-- Helper: the length of a trimmed long context. -/
theorem trim_context_long_len (ctx : Str) (h : maxContextLength < ctx.length) :
    (trim_context ctx).length = keepStart + keepEnd + trimMarker.length + 2 := by
  have h4 : 4000 < ctx.length := h
  unfold trim_context
  rw [if_neg (by omega)]
  simp only [List.length_append, List.length_take, List.length_cons,
    List.length_drop, List.length_nil]
  have hks : keepStart = 2400 := rfl
  have hke : keepEnd = 1600 := rfl
  have hml : trimMarker.length = 34 := rfl
  rw [hks, hke, hml]
  omega

/-- Helper: the marker occurs in every trimmed long context. -/
theorem trim_context_long_marker (ctx : Str) (h : maxContextLength < ctx.length) :
    trimMarker <:+: trim_context ctx := by
  unfold trim_context
  rw [if_neg (by omega)]
  exact ⟨ctx.take keepStart ++ ['\n'],
    '\n' :: ctx.drop (ctx.length - keepEnd), by simp⟩

/-- C5, counterexample: a 4001-character context is trimmed to
`keep_start + keep_end + len(marker) + 2` characters — the claimed
total `keep_start + keep_end + len(marker)` misses the two newlines the
f-string places around the marker. -/
theorem trim_context_length_counterexample :
    ¬ ((trim_context (List.replicate 4001 'a')).length =
        keepStart + keepEnd + trimMarker.length) := by
  have h := trim_context_long_len (List.replicate 4001 'a')
    (by rw [List.length_replicate]; decide)
  rw [h]
  decide

/-- C5 (amended): at the default `max_context_length = 4000`,
`_trim_context` returns contexts of length at most 4000 unchanged; a
longer context yields a string containing the literal marker whose
total length is `keep_start + keep_end + len(marker) + 2`, the marker
being joined to the kept pieces by one newline on each side. -/
theorem trim_context_spec (ctx : Str) :
    (ctx.length ≤ maxContextLength → trim_context ctx = ctx) ∧
    (maxContextLength < ctx.length →
      trimMarker <:+: trim_context ctx ∧
      (trim_context ctx).length = keepStart + keepEnd + trimMarker.length + 2) :=
  ⟨fun h => by unfold trim_context; rw [if_pos h],
   fun h => ⟨trim_context_long_marker ctx h, trim_context_long_len ctx h⟩⟩

/-- Witness for C5 at a short context and at 4001 repeated characters. -/
theorem trim_context_witness :
    (lit "abc").length ≤ maxContextLength ∧ trim_context (lit "abc") = lit "abc" ∧
    maxContextLength < (List.replicate 4001 'a' : Str).length ∧
    (trim_context (List.replicate 4001 'a')).length =
      keepStart + keepEnd + trimMarker.length + 2 :=
  ⟨by decide, (trim_context_spec (lit "abc")).1 (by decide),
   by rw [List.length_replicate]; decide,
   ((trim_context_spec (List.replicate 4001 'a')).2 (by rw [List.length_replicate]; decide)).2⟩

/-- Helper: `getD` at an in-range index. -/
theorem getD_eq_getElem (xs : List ℚ) (i : Nat) (h : i < xs.length) :
    xs.getD i 0 = xs[i] := by
  simp [List.getD, List.getElem?_eq_getElem h]

/-- Helper: the ascending argsort of a strictly descending list is the
reversed index range. -/
theorem argsort_strict_desc (xs : List ℚ) (hdesc : xs.Pairwise (· > ·)) :
    argsortAsc xs = (List.range xs.length).reverse := by
  have hsorted : List.Sorted (idxLe xs) (List.range xs.length).reverse := by
    rw [List.Sorted, List.pairwise_reverse, List.pairwise_iff_getElem]
    intro i j hi hj hij
    simp only [List.getElem_range]
    rw [List.length_range] at hi hj
    left
    rw [getD_eq_getElem xs i hi, getD_eq_getElem xs j hj]
    exact List.pairwise_iff_getElem.mp hdesc i j hi hj hij
  have hperm : (List.insertionSort (idxLe xs) (List.range xs.length)).Perm
      (List.range xs.length).reverse :=
    (List.perm_insertionSort _ _).trans (List.reverse_perm _).symm
  exact List.eq_of_perm_of_sorted hperm (List.sorted_insertionSort _ _) hsorted

/-- Helper: equal boosted scores on two documents with no key terms. -/
theorem boostedScores_ties : boostedScores [lit "a", lit "b"] [1, 1] [] = [1, 1] := by
  simp [boostedScores]

/-- Helper: strictly descending boosted scores on two documents. -/
theorem boostedScores_desc : boostedScores [lit "a", lit "b"] [2, 1] [] = [2, 1] := by
  simp [boostedScores]

/-- C6, counterexample: two documents with equal boosted scores — a
(non-strictly) descending score list — are ranked `[1, 0]`, not the
identity: reversing the ascending argsort puts tied documents in
descending index order. -/
theorem rank_documents_ties_counterexample :
    (boostedScores [lit "a", lit "b"] [1, 1] []).Pairwise (· ≥ ·) ∧
    rank_documents [lit "a", lit "b"] [1, 1] [] ≠
      List.range ([lit "a", lit "b"] : List Str).length := by
  constructor
  · rw [boostedScores_ties]; norm_num
  · rw [rank_documents, boostedScores_ties]
    have h01 : idxLe [1, 1] 0 1 := by simp [idxLe]
    simp only [argsortAsc, List.length_cons, List.length_nil, List.range,
      List.range.loop, List.insertionSort, List.orderedInsert, if_pos h01,
      List.reverse_cons, List.reverse_nil, List.nil_append, List.cons_append]
    decide

/-- C6 (amended): when the boosted scores are already strictly
descending (and the document and score lists are index-aligned),
`_rank_documents` returns the identity permutation `[0, 1, 2, …]`. -/
theorem rank_documents_strictly_descending_identity
    (documents : List Str) (scores : List ℚ) (key_terms : List Str)
    (hlen : documents.length = scores.length)
    (hdesc : (boostedScores documents scores key_terms).Pairwise (· > ·)) :
    rank_documents documents scores key_terms = List.range documents.length := by
  have hxlen : (boostedScores documents scores key_terms).length =
      documents.length := by
    simp [boostedScores, hlen]
  rw [rank_documents, argsort_strict_desc _ hdesc, hxlen, List.reverse_reverse]

/-- Witness for C6 on two documents with strictly descending scores. -/
theorem rank_documents_identity_witness :
    ([lit "a", lit "b"] : List Str).length = ([2, 1] : List ℚ).length ∧
    (boostedScores [lit "a", lit "b"] [2, 1] []).Pairwise (· > ·) ∧
    rank_documents [lit "a", lit "b"] [2, 1] [] = List.range 2 :=
  ⟨by decide, by rw [boostedScores_desc]; norm_num,
   rank_documents_strictly_descending_identity _ _ _ (by decide)
     (by rw [boostedScores_desc]; norm_num)⟩

/-- Helper: the history has one entry per agent. -/
theorem runHist_length (agents : List AgentM) (init : PyDict) :
    (runHist agents init).length = agents.length := by
  induction agents generalizing init with
  | nil => rfl
  | cons a as ih => simp [runHist, ih]

/-- Helper: the `i`-th history entry records the `i`-th agent's name
and the `error` value of running it on the accumulated state. -/
theorem runHist_entry (agents : List AgentM) (init : PyDict) :
    ∀ i (h : i < agents.length),
      (runHist agents init)[i]? =
        some ((agents.get ⟨i, h⟩).name, 0,
          dictGet (execWithLogging (agents.get ⟨i, h⟩) (stateBefore agents init i))
            "error") := by
  induction agents generalizing init with
  | nil => intro i h; exact absurd h (Nat.not_lt_zero i)
  | cons a as ih =>
    intro i h
    cases i with
    | zero => simp [runHist, stateBefore]
    | succ n =>
      have := ih (pyMerge init (execWithLogging a init)) n (Nat.lt_of_succ_lt_succ h)
      simpa [runHist, stateBefore] using this

/-- Helper: each agent's result is merged into the state the next
agent receives. -/
theorem stateBefore_step (agents : List AgentM) (init : PyDict) :
    ∀ i (h : i < agents.length),
      stateBefore agents init (i + 1) =
        pyMerge (stateBefore agents init i)
          (execWithLogging (agents.get ⟨i, h⟩) (stateBefore agents init i)) := by
  induction agents generalizing init with
  | nil => intro i h; exact absurd h (Nat.not_lt_zero i)
  | cons a as ih =>
    intro i h
    cases i with
    | zero => simp [stateBefore]
    | succ n =>
      have := ih (pyMerge init (execWithLogging a init)) n (Nat.lt_of_succ_lt_succ h)
      simpa [stateBefore] using this

/-- Helper: reading back a key just set on a dict. -/
theorem dictGet_dictSet_self (d : PyDict) (k : String) (v : Val) :
    dictGet (dictSet d k v) k = some v := by
  unfold dictGet dictSet
  split
  · rename_i h
    induction d with
    | nil => simp at h
    | cons p ps ih =>
      by_cases hp : (p.1 == k) = true
      · simp [List.find?, hp]
      · have hp' : (p.1 == k) = false := by simpa using hp
        rw [List.map_cons, if_neg (by simp [hp'])]
        rw [List.find?_cons_of_neg _ (by simp [hp'])]
        apply ih
        simpa [hp'] using h
  · rename_i h
    rw [List.find?_append]
    have hnone : d.find? (fun kv => kv.1 == k) = none := by
      rw [List.find?_eq_none]
      intro x hx hbeq
      exact h (List.any_eq_true.2 ⟨x, hx, hbeq⟩)
    simp [hnone, List.find?]

/-- C4: for every agent list and initial state, the state returned by
`run_pipeline` holds under `processing_history` a history with exactly
one entry per agent in pipeline order; each entry carries the agent's
name and the `error` value of its execution on the state accumulated so
far (non-null whenever `process` raised, by the last conjunct); every
agent's result — including a failure dict — is merged into the state
passed to the next agent. -/
theorem run_pipeline_history_per_agent (agents : List AgentM) (init : PyDict) :
    dictGet (run_pipeline agents init) "processing_history" =
      some (Val.hist (runHist agents init)) ∧
    (runHist agents init).length = agents.length ∧
    (∀ i (h : i < agents.length),
      (runHist agents init)[i]? =
        some ((agents.get ⟨i, h⟩).name, 0,
          dictGet (execWithLogging (agents.get ⟨i, h⟩) (stateBefore agents init i))
            "error")) ∧
    (∀ i (h : i < agents.length),
      stateBefore agents init (i + 1) =
        pyMerge (stateBefore agents init i)
          (execWithLogging (agents.get ⟨i, h⟩) (stateBefore agents init i))) ∧
    (∀ (a : AgentM) (d : PyDict) (e : String),
      a.process d = .error e →
        dictGet (execWithLogging a d) "error" = some (Val.str e)) :=
  ⟨by unfold run_pipeline; exact dictGet_dictSet_self _ _ _,
   runHist_length agents init, runHist_entry agents init,
   stateBefore_step agents init, fun a d e h => by
     unfold execWithLogging
     rw [h]
     rfl⟩

/-- Witness for C4: a three-agent pipeline whose middle agent always
raises still yields three history entries in order, the failing entry
carrying the error, and the third agent's output is merged into the
final pipeline state. -/
theorem run_pipeline_history_witness :
    (runHist demoAgents []).length = 3 ∧
    (runHist demoAgents [])[1]? = some ("failing", 0, some (Val.str "boom")) ∧
    (runHist demoAgents [])[2]? = some ("third", 0, none) ∧
    dictGet (execWithLogging demoFail []) "error" = some (Val.str "boom") ∧
    dictGet (run_pipeline demoAgents []) "k3" = some (Val.nat 3) := by
  refine ⟨(run_pipeline_history_per_agent demoAgents []).2.1.trans rfl, ?_, ?_,
    (run_pipeline_history_per_agent demoAgents []).2.2.2.2 demoFail [] "boom" rfl, rfl⟩
  · exact ((run_pipeline_history_per_agent demoAgents []).2.2.1 1 (by decide)).trans rfl
  · exact ((run_pipeline_history_per_agent demoAgents []).2.2.1 2 (by decide)).trans rfl

/-- Helper: the branch structure of `process_response` — the redaction
loop runs exactly when neither the security nor the blockchain
disclaimer fires; those two branches return the filtered text with the
disclaimer appended and no redaction. -/
theorem process_response_cases (cfg : GuardrailConfig) (q r : Str) :
    (anyTermIn securityTerms (combinedText q r) = false →
      anyTermIn blockchainTerms (combinedText q r) = false →
      process_response cfg q r = redactSensitive (technicalStage cfg q r)) ∧
    (anyTermIn securityTerms (combinedText q r) = true →
      process_response cfg q r =
        ensureNL (filterStage cfg r) ++ cfg.disclaimer_security.getD []) ∧
    (anyTermIn securityTerms (combinedText q r) = false →
      anyTermIn blockchainTerms (combinedText q r) = true →
      process_response cfg q r =
        ensureNL (filterStage cfg r) ++ cfg.disclaimer_blockchain.getD []) := by
  refine ⟨fun h1 h2 => ?_, fun h1 => ?_, fun h1 h2 => ?_⟩
  · simp [process_response, h1, h2]
  · simp [process_response, h1]
  · simp [process_response, h1, h2]

set_option maxRecDepth 10000 in
/-- C1, counterexample: with the query "security" the security
disclaimer branch fires and `process_response` returns the response
with an IPv4-like dotted quad left in place — the returned text still
matches a sensitive pattern, so the redaction was not applied. -/
theorem security_branch_returns_unredacted_counterexample :
    process_response freshConfig (lit "security") (lit "ip 1.2.3.4") =
      lit "ip 1.2.3.4\n" ∧
    reSearch ipMatcher
      (process_response freshConfig (lit "security") (lit "ip 1.2.3.4")) = true := by
  constructor <;> decide

/-- C1 (amended): `process_response` applies the four sensitive-data
redaction patterns only when the combined query+response text triggers
neither the security nor the blockchain disclaimer; when the security
disclaimer fires, the text is returned with the disclaimer appended and
without the redaction pass (and likewise for blockchain), so such a
response may retain substrings matching the four patterns. -/
theorem redaction_applied_only_without_security_or_blockchain
    (cfg : GuardrailConfig) (q r : Str) :
    (anyTermIn securityTerms (combinedText q r) = false →
      anyTermIn blockchainTerms (combinedText q r) = false →
      process_response cfg q r = redactSensitive (technicalStage cfg q r)) ∧
    (anyTermIn securityTerms (combinedText q r) = true →
      process_response cfg q r =
        ensureNL (filterStage cfg r) ++ cfg.disclaimer_security.getD []) ∧
    (anyTermIn securityTerms (combinedText q r) = false →
      anyTermIn blockchainTerms (combinedText q r) = true →
      process_response cfg q r =
        ensureNL (filterStage cfg r) ++ cfg.disclaimer_blockchain.getD []) :=
  process_response_cases cfg q r

set_option maxRecDepth 10000 in
/-- Witness for C1: on a query/response pair with no disclaimer
triggers, the redaction branch runs and replaces the dotted quad. -/
theorem redaction_branch_witness :
    anyTermIn securityTerms (combinedText (lit "hello") (lit "ip 1.2.3.4")) = false ∧
    anyTermIn blockchainTerms (combinedText (lit "hello") (lit "ip 1.2.3.4")) = false ∧
    process_response freshConfig (lit "hello") (lit "ip 1.2.3.4") =
      lit "ip [REDACTED]" :=
  ⟨by decide, by decide,
   ((redaction_applied_only_without_security_or_blockchain freshConfig
        (lit "hello") (lit "ip 1.2.3.4")).1 (by decide) (by decide)).trans (by decide)⟩

set_option maxRecDepth 40000 in
set_option maxHeartbeats 4000000 in
/-- C8, counterexample: a 400-character response with the query
"security" is truncated but then gains the disclaimer newline, so the
result has 325 characters and does not end in the truncation suffix —
the claimed length `300 + len("... [Response truncated]")` fails. -/
theorem truncation_length_counterexample :
    ¬ ((process_response freshConfig (lit "security")
          (List.replicate 400 'a')).length = 300 + truncSuffix.length ∧
        truncSuffix <:+ process_response freshConfig (lit "security")
          (List.replicate 400 'a')) := by decide

/-- C8 (amended): for a 400-character response under
`max_response_length = 300` with no filtered patterns, when the
combined query+response text contains no security, blockchain or
technical trigger term and the truncated text matches none of the four
sensitive patterns, `process_response` returns a string of exactly
`300 + len("... [Response truncated]")` characters ending in that
suffix; disclaimer branches or redaction can otherwise change the
result. -/
theorem truncation_length_spec (cfg : GuardrailConfig) (q r : Str)
    (hlen : r.length = 400) (hmax : cfg.max_response_length = 300)
    (hfp : cfg.filtered_patterns = [])
    (hsec : anyTermIn securityTerms (combinedText q r) = false)
    (hblk : anyTermIn blockchainTerms (combinedText q r) = false)
    (htech : anyTermIn technicalTerms (combinedText q r) = false)
    (hcc : reSearch ccMatcher (r.take 300 ++ truncSuffix) = false)
    (hss : reSearch ssnMatcher (r.take 300 ++ truncSuffix) = false)
    (hip : reSearch ipMatcher (r.take 300 ++ truncSuffix) = false)
    (hem : reSearch emailMatcher (r.take 300 ++ truncSuffix) = false) :
    (process_response cfg q r).length = 300 + truncSuffix.length ∧
    truncSuffix <:+ process_response cfg q r := by
  have hfs : filterStage cfg r = r.take 300 ++ truncSuffix := by
    unfold filterStage
    rw [hfp, hmax, hlen]
    norm_num
  have hts : technicalStage cfg q r = r.take 300 ++ truncSuffix := by
    unfold technicalStage
    rw [htech, hfs]
    simp
  have hpr : process_response cfg q r = r.take 300 ++ truncSuffix := by
    rw [(process_response_cases cfg q r).1 hsec hblk, hts]
    simp [redactSensitive, sensitiveMatchers, hcc, hss, hip, hem]
  refine ⟨?_, ?_⟩
  · rw [hpr]
    simp [List.length_take, hlen]
  · rw [hpr]
    exact ⟨r.take 300, rfl⟩

set_option maxRecDepth 40000 in
set_option maxHeartbeats 4000000 in
/-- Witness for C8: the empty query and a 400-character response of
repeated `a`, touching no trigger term and no sensitive pattern. -/
theorem truncation_length_witness :
    (List.replicate 400 'a' : Str).length = 400 ∧
    (process_response freshConfig [] (List.replicate 400 'a')).length =
      300 + truncSuffix.length ∧
    truncSuffix <:+ process_response freshConfig [] (List.replicate 400 'a') := by
  have h := truncation_length_spec freshConfig [] (List.replicate 400 'a')
    (by rw [List.length_replicate]) rfl rfl
    (by decide) (by decide) (by decide) (by decide) (by decide) (by decide) (by decide)
  exact ⟨by rw [List.length_replicate], h.1, h.2⟩

/-- Helper: the question-word penalty keeps a score inside `[0, 1]`. -/
theorem relPenalty_mem (query response : Str) :
    ∀ (l : List Str) (x : ℚ), 0 ≤ x → x ≤ 1 →
      0 ≤ relPenalty query response l x ∧ relPenalty query response l x ≤ 1 := by
  intro l
  induction l with
  | nil => intro x h0 h1; exact ⟨h0, h1⟩
  | cons w ws ih =>
    intro x h0 h1
    simp only [relPenalty]
    apply ih
    · split
      · exact le_max_left 0 _
      · exact h0
    · split
      · exact max_le (by norm_num) (by linarith)
      · exact h1

/-- Helper: the relevance score lies in `[0, 1]`. -/
theorem relevance_mem (response query : Str) :
    0 ≤ evaluate_relevance response query ∧ evaluate_relevance response query ≤ 1 := by
  simp only [evaluate_relevance]
  split
  · norm_num
  · split
    · norm_num
    · apply relPenalty_mem
      · positivity
      · exact min_le_left _ _

/-- Helper: the grounding score lies in `[0, 1]`. -/
theorem grounding_mem (response : Str) (documents : List Str) :
    0 ≤ evaluate_grounding response documents ∧
      evaluate_grounding response documents ≤ 1 := by
  simp only [evaluate_grounding]
  split
  · norm_num
  · split
    · norm_num
    · rename_i hs
      have hn : 0 < (pySentences response).length := by
        rw [List.isEmpty_iff] at hs
        exact List.length_pos.2 hs
      constructor
      · positivity
      · rw [div_le_one (by exact_mod_cast hn)]
        exact_mod_cast List.length_filter_le _ _

/-- Helper: the completeness score lies in `[0, 1]`. -/
theorem completeness_mem (response query : Str) (query_type : Str) :
    0 ≤ evaluate_completeness response query query_type ∧
      evaluate_completeness response query query_type ≤ 1 := by
  simp only [evaluate_completeness]
  refine ⟨le_min (by norm_num) ?_, min_le_left _ _⟩
  split_ifs <;> positivity

/-- Helper: the coherence score lies in `[0, 1]`. -/
theorem coherence_mem (response : Str) :
    0 ≤ evaluate_coherence response ∧ evaluate_coherence response ≤ 1 := by
  simp only [evaluate_coherence]
  split
  · norm_num
  · have key : ∀ (z : ℚ) (b : Bool), 0 ≤ z →
        0 ≤ 1/2 + min (3/10) z + (if b then (1/5:ℚ) else 0) ∧
          1/2 + min (3/10) z + (if b then (1/5:ℚ) else 0) ≤ 1 := by
      intro z b hz
      have h1 : (0:ℚ) ≤ min (3/10) z := le_min (by norm_num) hz
      have h2 : min (3/10) z ≤ 3/10 := min_le_left _ _
      cases b <;> simp <;> constructor <;> linarith
    exact key _ _ (by positivity)

/-- Helper: the conciseness score lies in `[0, 1]`. -/
theorem conciseness_mem (response : Str) :
    0 ≤ evaluate_conciseness response ∧ evaluate_conciseness response ≤ 1 := by
  simp only [evaluate_conciseness]
  constructor
  · exact le_min (by norm_num) (le_trans (by norm_num) (le_max_left _ _))
  · exact min_le_left _ _

/-- C9 (amended): every one of the five evaluation metrics returns a
value in the closed interval `[0, 1]`, and the `overall_score` the
evaluation agent's `process` returns is their arithmetic mean rounded
to two decimal places (Python `round`), not the exact mean. -/
theorem evaluation_scores_bounds_and_rounded_mean
    (response query : Str) (documents : List Str) (query_type : Str) :
    (0 ≤ evaluate_relevance response query ∧
      evaluate_relevance response query ≤ 1) ∧
    (0 ≤ evaluate_grounding response documents ∧
      evaluate_grounding response documents ≤ 1) ∧
    (0 ≤ evaluate_completeness response query query_type ∧
      evaluate_completeness response query query_type ≤ 1) ∧
    (0 ≤ evaluate_coherence response ∧ evaluate_coherence response ≤ 1) ∧
    (0 ≤ evaluate_conciseness response ∧ evaluate_conciseness response ≤ 1) ∧
    overall_score response query documents query_type =
      pyRound2 (evaluationMean response query documents query_type) :=
  ⟨relevance_mem response query, grounding_mem response documents,
   completeness_mem response query query_type, coherence_mem response,
   conciseness_mem response, rfl⟩

/-- Helper: the relevance score of the counterexample input. -/
theorem relevance_alpha : evaluate_relevance (lit "alpha") (lit "alpha beta gamma") =
    1/3 := by
  simp only [evaluate_relevance]
  rw [show (findallWords4 (pyLower (lit "alpha beta gamma"))).dedup =
      [lit "alpha", lit "beta", lit "gamma"] from by decide]
  rw [show (findallWords4 (pyLower (lit "alpha"))).dedup = [lit "alpha"] from by decide]
  rw [show ([lit "alpha", lit "beta", lit "gamma"].filter
      (· ∈ ([lit "alpha"] : List Str))).length = 1 from by decide]
  norm_num
  simp only [questionWords, relPenalty]
  rw [show (subIn (lit "what") (pyLower (lit "alpha beta gamma")) &&
      !subIn (lit "what") (pyLower (lit "alpha"))) = false from by decide]
  rw [show (subIn (lit "who") (pyLower (lit "alpha beta gamma")) &&
      !subIn (lit "who") (pyLower (lit "alpha"))) = false from by decide]
  rw [show (subIn (lit "where") (pyLower (lit "alpha beta gamma")) &&
      !subIn (lit "where") (pyLower (lit "alpha"))) = false from by decide]
  rw [show (subIn (lit "when") (pyLower (lit "alpha beta gamma")) &&
      !subIn (lit "when") (pyLower (lit "alpha"))) = false from by decide]
  rw [show (subIn (lit "why") (pyLower (lit "alpha beta gamma")) &&
      !subIn (lit "why") (pyLower (lit "alpha"))) = false from by decide]
  rw [show (subIn (lit "how") (pyLower (lit "alpha beta gamma")) &&
      !subIn (lit "how") (pyLower (lit "alpha"))) = false from by decide]
  norm_num

/-- Helper: the grounding score of the counterexample input. -/
theorem grounding_alpha : evaluate_grounding (lit "alpha") [] = 1/2 := by
  simp [evaluate_grounding]

/-- Helper: the completeness score of the counterexample input. -/
theorem completeness_alpha :
    evaluate_completeness (lit "alpha") (lit "alpha beta gamma") (lit "general") =
      1/100 := by
  simp only [evaluate_completeness]
  rw [show (pySplit (lit "alpha")).length = 1 from by decide]
  rw [show lookupD minWordsMap (lit "general") 50 = 50 from by decide]
  rw [show lookupD idealWordsMap (lit "general") 120 = 120 from by decide]
  rw [if_neg (show ¬(lit "general" = lit "procedural") from by decide),
    if_neg (show ¬(lit "general" = lit "comparative") from by decide),
    if_neg (show ¬(lit "general" = lit "definitional") from by decide)]
  rw [if_pos (show (1:Nat) < 50 from by norm_num)]
  norm_num

/-- Helper: the coherence score of the counterexample input. -/
theorem coherence_alpha : evaluate_coherence (lit "alpha") = 1/2 := by
  simp only [evaluate_coherence]
  rw [if_pos (by decide)]

/-- Helper: the conciseness score of the counterexample input. -/
theorem conciseness_alpha : evaluate_conciseness (lit "alpha") = 3/10 := by
  simp only [evaluate_conciseness]
  rw [show (pySplit (lit "alpha")).length = 1 from by decide]
  rw [show (redundantPhrases.filter fun p => subIn p (pyLower (lit "alpha"))).length = 0
    from by decide]
  rw [show countSimilarPairs ((pySentences (lit "alpha")).map pyLower) = 0
    from by decide]
  norm_num

/-- Helper: the exact metric mean of the counterexample input. -/
theorem mean_alpha :
    evaluationMean (lit "alpha") (lit "alpha beta gamma") [] (lit "general") =
      493/1500 := by
  unfold evaluationMean
  rw [relevance_alpha, grounding_alpha, completeness_alpha, coherence_alpha,
    conciseness_alpha]
  norm_num

/-- Helper: the rounded overall score of the counterexample input. -/
theorem overall_alpha :
    overall_score (lit "alpha") (lit "alpha beta gamma") [] (lit "general") =
      33/100 := by
  unfold overall_score
  rw [mean_alpha]
  unfold pyRound2 roundHalfEven
  rw [show (493:ℚ)/1500 * 100 = 493/15 from by norm_num]
  rw [show ⌊(493:ℚ)/15⌋ = 32 from by
    rw [Int.floor_eq_iff]
    norm_num]
  norm_num

/-- C9, counterexample: for the response "alpha", the query
"alpha beta gamma", no documents and query type "general", the returned
`overall_score` is 0.33 while the arithmetic mean of the five metric
scores is 493/1500 ≈ 0.3287 — the returned value is the rounded mean,
not the mean. -/
theorem overall_score_rounding_counterexample :
    overall_score (lit "alpha") (lit "alpha beta gamma") [] (lit "general") ≠
      evaluationMean (lit "alpha") (lit "alpha beta gamma") [] (lit "general") := by
  rw [overall_alpha, mean_alpha]
  norm_num

end Aifaq
